import Mathlib

/-!
Shallow embedding of the MRPT class CObservation2DRangeScan: the versioned
binary codec (writeToStream / readFromStream) and the three exclusion filters
(truncateByDistanceAndAngle, filterByExclusionAreas, filterByExclusionAngles).

Modelling conventions:
* IEEE float / double values are modelled as exact rationals.  The codec never
  performs arithmetic on them, so value identity in the model corresponds to
  bit identity in the code.
* Angle valued quantities are measured in units of pi.  Wrapping modulo 2*pi
  becomes wrapping modulo 2, M_PI becomes 1, DEG2RAD(d) becomes d/180, and all
  of the geometry used by the filters stays inside exact rational arithmetic.
* The binary stream is modelled at the granularity of the primitive CStream
  writes: one StreamItem per operator<< write, and one buffer item per
  WriteBufferFixEndianness / WriteBuffer call.  Reading a different shape than
  what was written, or reading past the end, is a stream failure (none).
* readFromStream mutates an existing record (the C++ method runs on this), so
  the model takes the prior record and returns the updated one.
* cos, sin, the pose composition and the polygon containment test are external
  collaborators; the filters take them as function parameters.
-/

namespace MRPTObs

/-- The C fabs function on the rational model of floating point values. -/
def fabs (q : ℚ) : ℚ := if q < 0 then -q else q

/-- A C++ double to int conversion: truncation toward zero. -/
def cppTruncToInt (q : ℚ) : ℤ := if 0 ≤ q then ⌊q⌋ else -⌊-q⌋

/-- Modelled from the spec: mrpt::math::wrapTo2Pi (header mrpt/math/wrap2pi.h is
not under src/).  The spec glossary defines it as normalization of an angle into
a canonical [0, 2*pi) range; in units of pi this is reduction modulo 2 into
[0, 2). -/
def wrapTo2Pi (x : ℚ) : ℚ := x - 2 * (⌊x / 2⌋ : ℤ)

/-- DEG2RAD from mrpt: degrees to radians.  In units of pi, d degrees is d/180. -/
def DEG2RAD (d : ℚ) : ℚ := d / 180

/-- One primitive value written to / read from the binary stream, one
constructor per kind of primitive CStream write used by the source: float and
double operator<<, bool, uint32_t, the 64-bit timestamp, std::string, the
opaque CPose3D and CMatrix payloads, a WriteBufferFixEndianness float buffer
and a raw WriteBuffer byte buffer (the validity array). -/
inductive StreamItem where
  | f32 (x : ℚ)
  | f64 (x : ℚ)
  | boolItem (v : Bool)
  | u32 (n : ℕ)
  | u64 (n : ℕ)
  | strItem (s : String)
  | poseItem (p : ℕ)
  | matItem (m : ℕ)
  | f32buf (xs : List ℚ)
  | bytebuf (xs : List Bool)

/-- The record: raw per-ray arrays plus the scalar sensor parameters of
CObservation2DRangeScan.  sensorPose and the cached map are opaque. -/
structure CObservation2DRangeScan where
  scan : List ℚ
  validRange : List Bool
  intensity : List ℚ
  aperture : ℚ
  rightToLeft : Bool
  maxRange : ℚ
  sensorPose : ℕ
  stdError : ℚ
  beamAperture : ℚ
  deltaPitch : ℚ
  timestamp : ℕ
  sensorLabel : String
  m_cachedMap : Option ℕ

/-- The default constructor of the source: aperture = M_PI (1 in units of pi),
rightToLeft, maxRange 80, stdError 0.01, beamAperture 0, deltaPitch 0, empty
arrays, empty cached map. -/
def defaultObs : CObservation2DRangeScan :=
  { scan := [], validRange := [], intensity := [], aperture := 1,
    rightToLeft := true, maxRange := 80, sensorPose := 0, stdError := 1/100,
    beamAperture := 0, deltaPitch := 0, timestamp := 0, sensorLabel := "",
    m_cachedMap := none }

/-- Failure modes of the modelled operations: the unknown-version throw of
readFromStream, a stream failure (truncated or mismatched bytes), and an
ASSERT_ failure. -/
inductive CodecError where
  | unknownVersion
  | ioError
  | assertFailed
deriving DecidableEq

/-- Read one float written with operator<<. -/
def readF32 : List StreamItem → Option (ℚ × List StreamItem)
  | StreamItem.f32 x :: s => some (x, s)
  | _ => none

/-- Read one double written with operator<<. -/
def readF64 : List StreamItem → Option (ℚ × List StreamItem)
  | StreamItem.f64 x :: s => some (x, s)
  | _ => none

/-- Read one bool written with operator<<. -/
def readBool : List StreamItem → Option (Bool × List StreamItem)
  | StreamItem.boolItem v :: s => some (v, s)
  | _ => none

/-- Read one uint32_t written with operator<<. -/
def readU32 : List StreamItem → Option (ℕ × List StreamItem)
  | StreamItem.u32 n :: s => some (n, s)
  | _ => none

/-- Read the 64-bit timestamp.  Both forms used by the source, operator>> and
ReadBufferFixEndianness(&timestamp, 1), consume the same 8 endianness
normalized bytes, so both are the same item read in the model. -/
def readU64 : List StreamItem → Option (ℕ × List StreamItem)
  | StreamItem.u64 n :: s => some (n, s)
  | _ => none

/-- Read one std::string written with operator<<. -/
def readStr : List StreamItem → Option (String × List StreamItem)
  | StreamItem.strItem x :: s => some (x, s)
  | _ => none

/-- Read the opaque CPose3D payload. -/
def readPose : List StreamItem → Option (ℕ × List StreamItem)
  | StreamItem.poseItem p :: s => some (p, s)
  | _ => none

/-- Read the opaque CMatrix payload (the legacy covariance block). -/
def readMat : List StreamItem → Option (ℕ × List StreamItem)
  | StreamItem.matItem m :: s => some (m, s)
  | _ => none

/-- ReadBufferFixEndianness of n floats: a byte count mismatch against the
buffer that was written is a stream failure. -/
def readF32Buf (n : ℕ) : List StreamItem → Option (List ℚ × List StreamItem)
  | StreamItem.f32buf xs :: s => if xs.length = n then some (xs, s) else none
  | _ => none

/-- ReadBuffer of n raw validity bytes. -/
def readByteBuf (n : ℕ) : List StreamItem → Option (List Bool × List StreamItem)
  | StreamItem.bytebuf xs :: s => if xs.length = n then some (xs, s) else none
  | _ => none

/-- scan.resize(N) followed by the buffer read guarded by N nonzero: for
N = 0 the array stays empty, otherwise its N values are read. -/
def readScanBuf (n : ℕ) (s : List StreamItem) :
    Option (List ℚ × List StreamItem) :=
  if n = 0 then some ([], s) else readF32Buf n s

/-- The validity array step of the versions 0 to 3 branch: an explicit
validity byte buffer for version >= 1 (validRange.resize(N) plus the guarded
ReadBuffer), or the version 0 default fill validRange[i] = scan[i] < maxRange. -/
def readValidV (version : ℤ) (n : ℕ) (scan : List ℚ) (maxRange : ℚ)
    (s : List StreamItem) : Option (List Bool × List StreamItem) :=
  if 1 ≤ version then
    if n = 0 then some ([], s) else readByteBuf n s
  else
    some (scan.map (fun x => decide (x < maxRange)), s)

/-- The stdError step of the versions 0 to 3 branch: read it for
version >= 2, else the default 0.01f. -/
def readStdErrV (version : ℤ) (s : List StreamItem) :
    Option (ℚ × List StreamItem) :=
  if 2 ≤ version then readF32 s else some (1/100, s)

/-- The timestamp step of the versions 0 to 3 branch: read it for
version >= 3, else keep the record's previous value (the source assigns
nothing in that case). -/
def readTsV (version : ℤ) (old : ℕ) (s : List StreamItem) :
    Option (ℕ × List StreamItem) :=
  if 3 ≤ version then readU64 s else some (old, s)

/-- The body of the readFromStream switch for versions 0 to 3: aperture,
rightToLeft, maxRange, sensorPose, the discarded covariance matrix, N and the
ranges; then the version dependent validity, stdError and timestamp steps;
finally the defaults beamAperture = DEG2RAD(0.25f), deltaPitch = 0 and
sensorLabel = "".  The intensity array is not touched by this branch. -/
def readV03 (version : ℤ) (r : CObservation2DRangeScan) (s0 : List StreamItem) :
    Option (CObservation2DRangeScan × List StreamItem) := do
  let (aperture, s) ← readF32 s0
  let (rightToLeft, s) ← readBool s
  let (maxRange, s) ← readF32 s
  let (sensorPose, s) ← readPose s
  let (_covSensorPose, s) ← readMat s
  let (n, s) ← readU32 s
  let (scan, s) ← readScanBuf n s
  let (validRange, s) ← readValidV version n scan maxRange s
  let (stdError, s) ← readStdErrV version s
  let (timestamp, s) ← readTsV version r.timestamp s
  some ({ r with
    aperture := aperture, rightToLeft := rightToLeft, maxRange := maxRange,
    sensorPose := sensorPose, scan := scan, validRange := validRange,
    stdError := stdError, timestamp := timestamp,
    beamAperture := DEG2RAD (1/4), deltaPitch := 0, sensorLabel := "" }, s)

/-- The covariance step of the versions 4 to 7 branch: the legacy block is
still present and discarded for version < 6 and absent from version 6 on. -/
def readCovV (version : ℤ) (s : List StreamItem) :
    Option (ℕ × List StreamItem) :=
  if version < 6 then readMat s else some (0, s)

/-- scan.resize(N), validRange.resize(N) and the two buffer reads guarded by
N nonzero, of the versions 4 to 7 branch. -/
def readScanValid (n : ℕ) (s0 : List StreamItem) :
    Option ((List ℚ × List Bool) × List StreamItem) :=
  if n = 0 then some (([], []), s0)
  else do
    let (scan, s) ← readF32Buf n s0
    let (validRange, s) ← readByteBuf n s
    some ((scan, validRange), s)

/-- The sensorLabel / deltaPitch step of the versions 4 to 7 branch: both are
read for version >= 5, else the defaults "" and 0. -/
def readLabelPitchV (version : ℤ) (s0 : List StreamItem) :
    Option ((String × ℚ) × List StreamItem) :=
  if 5 ≤ version then do
    let (sensorLabel, s) ← readStr s0
    let (deltaPitch, s) ← readF64 s
    some ((sensorLabel, deltaPitch), s)
  else
    some (("", 0), s0)

/-- The version >= 7 intensity step of readFromStream: read the has-intensity
flag; if it is set and N is nonzero, read N intensity values, otherwise leave
the intensity array as it was. -/
def readIntensityV7 (n : ℕ) (old : List ℚ) (s0 : List StreamItem) :
    Option (List ℚ × List StreamItem) := do
  let (hasIntensity, s) ← readBool s0
  if hasIntensity ∧ n ≠ 0 then readF32Buf n s else some (old, s)

/-- The intensity step of the versions 4 to 7 branch: the flag and data exist
only from version 7 on; below that the intensity array is left as it was. -/
def readIntensityV (version : ℤ) (n : ℕ) (old : List ℚ)
    (s : List StreamItem) : Option (List ℚ × List StreamItem) :=
  if 7 ≤ version then readIntensityV7 n old s else some (old, s)

/-- The body of the readFromStream switch for versions 4 to 7: aperture,
rightToLeft, maxRange, sensorPose, the discarded covariance matrix only for
version < 6, N, the ranges and validity buffers, stdError, timestamp,
beamAperture; then the version dependent sensorLabel / deltaPitch and
intensity steps. -/
def readV47 (version : ℤ) (r : CObservation2DRangeScan) (s0 : List StreamItem) :
    Option (CObservation2DRangeScan × List StreamItem) := do
  let (aperture, s) ← readF32 s0
  let (rightToLeft, s) ← readBool s
  let (maxRange, s) ← readF32 s
  let (sensorPose, s) ← readPose s
  let (_covSensorPose, s) ← readCovV version s
  let (n, s) ← readU32 s
  let (scanVr, s) ← readScanValid n s
  let (stdError, s) ← readF32 s
  let (timestamp, s) ← readU64 s
  let (beamAperture, s) ← readF32 s
  let (labelPitch, s) ← readLabelPitchV version s
  let (intensity, s) ← readIntensityV version n r.intensity s
  some ({ r with
    aperture := aperture, rightToLeft := rightToLeft, maxRange := maxRange,
    sensorPose := sensorPose, scan := scanVr.1, validRange := scanVr.2,
    stdError := stdError, timestamp := timestamp, beamAperture := beamAperture,
    sensorLabel := labelPitch.1, deltaPitch := labelPitch.2,
    intensity := intensity }, s)

/-- readFromStream: dispatch on the version tag.  Versions 0 to 3 and 4 to 7
have their own layouts; any other tag throws the unknown serialization version
error before touching any field.  After any successful decode the cached map is
cleared. -/
def readFromStream (version : ℤ) (s : List StreamItem)
    (r : CObservation2DRangeScan) : Except CodecError CObservation2DRangeScan :=
  if 0 ≤ version ∧ version ≤ 3 then
    match readV03 version r s with
    | some (r', _) => Except.ok { r' with m_cachedMap := none }
    | none => Except.error CodecError.ioError
  else if 4 ≤ version ∧ version ≤ 7 then
    match readV47 version r s with
    | some (r', _) => Except.ok { r' with m_cachedMap := none }
    | none => Except.error CodecError.ioError
  else
    Except.error CodecError.unknownVersion

/-- writeToStream (the data path; the version tag reported through the version
pointer protocol is 7): aperture, rightToLeft, maxRange, sensorPose, N, then
for nonzero N the ranges and validity buffers, then stdError, timestamp,
beamAperture, sensorLabel, deltaPitch, the has-intensity flag and, when the
intensity array is nonempty, N intensity values taken from it.  The ASSERT_
that validRange and scan have equal sizes aborts the write (the exception makes
the partially written prefix unusable, so the model emits nothing).  Writing
fewer than N stored intensity values is undefined in C++; the model writes the
first N. -/
def writeToStream (r : CObservation2DRangeScan) :
    Except CodecError (List StreamItem) :=
  if r.validRange.length = r.scan.length then
    Except.ok
      ([StreamItem.f32 r.aperture, StreamItem.boolItem r.rightToLeft,
        StreamItem.f32 r.maxRange, StreamItem.poseItem r.sensorPose,
        StreamItem.u32 r.scan.length]
       ++ (if r.scan.length = 0 then []
           else [StreamItem.f32buf r.scan, StreamItem.bytebuf r.validRange])
       ++ [StreamItem.f32 r.stdError, StreamItem.u64 r.timestamp,
           StreamItem.f32 r.beamAperture, StreamItem.strItem r.sensorLabel,
           StreamItem.f64 r.deltaPitch,
           StreamItem.boolItem (decide (r.intensity ≠ []))]
       ++ (if r.intensity = [] then []
           else [StreamItem.f32buf (r.intensity.take r.scan.length)]))
  else
    Except.error CodecError.assertFailed

/-- The sweep start angle of the exclusion filters: -aperture/2 for a right to
left scan, +aperture/2 otherwise. -/
def exclAng0 (aperture : ℚ) (rightToLeft : Bool) : ℚ :=
  if rightToLeft then -(1/2) * aperture else (1/2) * aperture

/-- The sweep step of the exclusion filters: aperture/(N-1), negated for a left
to right scan. -/
def exclDA (aperture : ℚ) (rightToLeft : Bool) (n : ℕ) : ℚ :=
  if rightToLeft then aperture / ((n : ℚ) - 1) else -(aperture / ((n : ℚ) - 1))

/-- One endpoint index of filterByExclusionAngles: the int value of
wrapTo2Pi(target - Ang) / dA, then the two clamps of the source, raising a
negative result to 0 and lowering a result strictly greater than N to N-1. -/
def exclIdx (ang dA : ℚ) (n : ℕ) (target : ℚ) : ℤ :=
  let raw := cppTruncToInt (wrapTo2Pi (target - ang) / dA)
  let lo := if raw < 0 then 0 else raw
  if lo > (n : ℤ) then (n : ℤ) - 1 else lo

/-- A loop writing false into validRange at the indices lo, lo+1, ...,
lo+len-1; a write past the end of the list is dropped (in C++ it would be an
out of bounds vector write). -/
def setFalseRun (v : List Bool) (lo len : ℕ) : List Bool :=
  (List.range' lo len).foldl (fun w i => w.set i false) v

/-- The per-pair body of filterByExclusionAngles: compute the two clamped
endpoint indices, then either invalidate the inclusive run [idx_ini, idx_end],
or, when idx_end < idx_ini, invalidate [0, idx_end) and [idx_ini, N). -/
def applyExclusionPair (ang dA : ℚ) (n : ℕ) (pr : ℚ × ℚ) (v : List Bool) :
    List Bool :=
  let idx_ini := (exclIdx ang dA n pr.1).toNat
  let idx_end := (exclIdx ang dA n pr.2).toNat
  if idx_ini ≤ idx_end then
    setFalseRun v idx_ini (idx_end + 1 - idx_ini)
  else
    setFalseRun (setFalseRun v 0 idx_end) idx_ini (n - idx_ini)

/-- filterByExclusionAngles: early return on an empty pair list, ASSERT_ on the
array sizes, early return on an empty scan, then apply every pair to the
validity array. -/
def filterByExclusionAngles (angles : List (ℚ × ℚ))
    (o : CObservation2DRangeScan) : Except CodecError CObservation2DRangeScan :=
  if angles = [] then Except.ok o
  else if o.scan.length = o.validRange.length then
    if o.scan.length = 0 then Except.ok o
    else
      let vr := angles.foldl
        (fun v pr =>
          applyExclusionPair (exclAng0 o.aperture o.rightToLeft)
            (exclDA o.aperture o.rightToLeft o.scan.length)
            o.scan.length pr v)
        o.validRange
      Except.ok { o with validRange := vr }
  else Except.error CodecError.assertFailed

/-- The angle tested by truncateByDistanceAndAngle at ray k:
fabs(k*aperture/nPts - aperture*0.5).  Note the division by nPts, not
nPts - 1, and the absence of any dependence on the scan direction. -/
def truncAng (aperture : ℚ) (nPts k : ℕ) : ℚ :=
  fabs ((k : ℚ) * aperture / (nPts : ℚ) - aperture * (1/2))

/-- The per-ray invalidation test of truncateByDistanceAndAngle on range value
r at ray k: with a height band given (min_height or max_height nonzero) a ray
fails on short range, large angle or a forward projection x = r*cos(ang)
outside [h - max_height, h - min_height]; without a height band only the first
two tests apply. -/
def truncInvalidates (cosQ : ℚ → ℚ)
    (min_distance max_angle min_height max_height h : ℚ)
    (aperture : ℚ) (nPts k : ℕ) (r : ℚ) : Bool :=
  let ang := truncAng aperture nPts k
  let x := r * cosQ ang
  if min_height ≠ 0 ∨ max_height ≠ 0 then
    decide (r < min_distance) || decide (ang > max_angle) ||
      decide (x > h - min_height) || decide (x < h - max_height)
  else
    decide (r < min_distance) || decide (ang > max_angle)

/-- truncateByDistanceAndAngle: walks scan and validRange in lockstep and
writes false into validRange where truncInvalidates holds.  There is no size
ASSERT_; the only ASSERT_ is max_height > min_height inside the loop when a
height band is given, modelled here as an up front failure when the scan is
nonempty.  A write past the end of validRange (undefined in C++ when
validRange is shorter than scan) is dropped. -/
def truncateByDistanceAndAngle (cosQ : ℚ → ℚ)
    (min_distance max_angle min_height max_height h : ℚ)
    (o : CObservation2DRangeScan) : Except CodecError CObservation2DRangeScan :=
  if (min_height ≠ 0 ∨ max_height ≠ 0) ∧ ¬ max_height > min_height ∧
      o.scan ≠ [] then
    Except.error CodecError.assertFailed
  else
    let vr := (List.range o.scan.length).foldl
      (fun v k =>
        if truncInvalidates cosQ min_distance max_angle min_height max_height
            h o.aperture o.scan.length k (o.scan.getD k 0)
        then v.set k false else v)
      o.validRange
    Except.ok { o with validRange := vr }

/-- The per-ray body of the filterByExclusionAreas loop: a still valid ray is
projected with cos and sin at its sweep angle, composed with the sensor pose,
and invalidated when the result lies in some polygon with its z inside that
polygon's height band; an already invalid ray is skipped.  The polygon
containment test and the pose composition are external collaborators passed
as functions. -/
def exclusionAreaStep (cosQ sinQ : ℚ → ℚ)
    (composePoint : ℕ → ℚ × ℚ × ℚ → ℚ × ℚ × ℚ)
    (areas : List ((ℚ → ℚ → Bool) × ℚ × ℚ)) (o : CObservation2DRangeScan)
    (v : List Bool) (k : ℕ) : List Bool :=
  if v.getD k false then
    let ang := exclAng0 o.aperture o.rightToLeft +
      (k : ℚ) * exclDA o.aperture o.rightToLeft o.scan.length
    let lx := o.scan.getD k 0 * cosQ ang
    let ly := o.scan.getD k 0 * sinQ ang
    let g := composePoint o.sensorPose (lx, ly, 0)
    if areas.any (fun a =>
        a.1 g.1 g.2.1 && decide (a.2.1 ≤ g.2.2) && decide (g.2.2 ≤ a.2.2))
    then v.set k false else v
  else v

/-- filterByExclusionAreas: early return on an empty area list, ASSERT_ on the
array sizes, early return on an empty scan; then the per-ray exclusion step
over every ray. -/
def filterByExclusionAreas (cosQ sinQ : ℚ → ℚ)
    (composePoint : ℕ → ℚ × ℚ × ℚ → ℚ × ℚ × ℚ)
    (areas : List ((ℚ → ℚ → Bool) × ℚ × ℚ))
    (o : CObservation2DRangeScan) : Except CodecError CObservation2DRangeScan :=
  if areas.isEmpty then Except.ok o
  else if o.scan.length = o.validRange.length then
    if o.scan.length = 0 then Except.ok o
    else
      let vr := (List.range o.scan.length).foldl
        (exclusionAreaStep cosQ sinQ composePoint areas o) o.validRange
      Except.ok { o with validRange := vr }
  else Except.error CodecError.assertFailed

/-- Spec side definition of the ScanGeometry ray angle, for comparison with
the source: angle(k) = A0 + k*dA with A0 = -aperture/2 for a right to left
scan and +aperture/2 otherwise, and dA = aperture/(N-1), negated for a left to
right scan (spec section 4.1). -/
def specScanAngle (aperture : ℚ) (rightToLeft : Bool) (n k : ℕ) : ℚ :=
  (if rightToLeft then -aperture/2 else aperture/2) +
    (k : ℚ) * (if rightToLeft then aperture / ((n : ℚ) - 1)
               else -(aperture / ((n : ℚ) - 1)))

/-- The record invariant of the spec: equal scan and validity lengths, and an
intensity array that is empty or of the scan's length. -/
def recInvariant (o : CObservation2DRangeScan) : Prop :=
  o.scan.length = o.validRange.length ∧
    (o.intensity = [] ∨ o.intensity.length = o.scan.length)

/-- A three ray record with aperture pi, used as concrete input. -/
def ex3 : CObservation2DRangeScan :=
  { defaultObs with scan := [1, 1, 1], validRange := [true, true, true] }

/-- A record whose scan and validity lengths disagree, used as concrete
input. -/
def exMismatch : CObservation2DRangeScan :=
  { defaultObs with scan := [1], validRange := [] }

/-- A record holding a stale nonempty intensity array, used as concrete
input for decoding a version 7 stream. -/
def exStale7 : CObservation2DRangeScan :=
  { defaultObs with intensity := [5] }

/-- A record holding a stale intensity array of length 2, used as concrete
input for decoding a version 4 stream with N = 1. -/
def exStale4 : CObservation2DRangeScan :=
  { defaultObs with intensity := [3, 4] }

/-- A version 7 stream with N = 1 whose has-intensity flag is false. -/
def s7flagFalse : List StreamItem :=
  [StreamItem.f32 1, StreamItem.boolItem true, StreamItem.f32 10,
   StreamItem.poseItem 0, StreamItem.u32 1, StreamItem.f32buf [2],
   StreamItem.bytebuf [true], StreamItem.f32 2, StreamItem.u64 9,
   StreamItem.f32 3, StreamItem.strItem "L", StreamItem.f64 4,
   StreamItem.boolItem false]

/-- A version 4 stream with N = 1 (covariance block still present, no
sensorLabel, no deltaPitch, no intensity data). -/
def s4n1 : List StreamItem :=
  [StreamItem.f32 1, StreamItem.boolItem true, StreamItem.f32 10,
   StreamItem.poseItem 0, StreamItem.matItem 0, StreamItem.u32 1,
   StreamItem.f32buf [2], StreamItem.bytebuf [true], StreamItem.f32 2,
   StreamItem.u64 9, StreamItem.f32 3]

/-- A version 0 stream with N = 2: no validity buffer, no stdError, no
timestamp. -/
def s0n2 : List StreamItem :=
  [StreamItem.f32 1, StreamItem.boolItem true, StreamItem.f32 10,
   StreamItem.poseItem 0, StreamItem.matItem 0, StreamItem.u32 2,
   StreamItem.f32buf [2, 90]]

/-- A version 1 stream with N = 1: validity buffer present, still no stdError
and no timestamp. -/
def s1n1 : List StreamItem :=
  [StreamItem.f32 1, StreamItem.boolItem true, StreamItem.f32 10,
   StreamItem.poseItem 0, StreamItem.matItem 0, StreamItem.u32 1,
   StreamItem.f32buf [2], StreamItem.bytebuf [false]]

/-- A record with a value different from the constructed default in every
serialized field, including a nonempty intensity array, used as the concrete
round trip input. -/
def exFull : CObservation2DRangeScan :=
  { scan := [2, 3], validRange := [true, false], intensity := [7, 9],
    aperture := 2, rightToLeft := false, maxRange := 30, sensorPose := 5,
    stdError := 2, beamAperture := 3, deltaPitch := 4, timestamp := 123,
    sensorLabel := "LMS", m_cachedMap := some 1 }

/-- A second record whose scan and validity lengths disagree, used as
concrete input. -/
def exMismatch2 : CObservation2DRangeScan :=
  { defaultObs with scan := [1, 1], validRange := [true] }

/-- The stream produced by encoding exFull. -/
def lFull : List StreamItem :=
  [StreamItem.f32 2, StreamItem.boolItem false, StreamItem.f32 30,
   StreamItem.poseItem 5, StreamItem.u32 2, StreamItem.f32buf [2, 3],
   StreamItem.bytebuf [true, false], StreamItem.f32 2, StreamItem.u64 123,
   StreamItem.f32 3, StreamItem.strItem "LMS", StreamItem.f64 4,
   StreamItem.boolItem true, StreamItem.f32buf [7, 9]]

/-- The record produced by decoding the version 0 stream s0n2 into a default
constructed record. -/
def decoded0 : CObservation2DRangeScan :=
  { scan := [2, 90], validRange := [true, false], intensity := [],
    aperture := 1, rightToLeft := true, maxRange := 10, sensorPose := 0,
    stdError := 1/100, beamAperture := DEG2RAD (1/4), deltaPitch := 0,
    timestamp := 0, sensorLabel := "", m_cachedMap := none }

/-- The record produced by decoding the version 1 stream s1n1 into a default
constructed record. -/
def decoded1 : CObservation2DRangeScan :=
  { scan := [2], validRange := [false], intensity := [],
    aperture := 1, rightToLeft := true, maxRange := 10, sensorPose := 0,
    stdError := 1/100, beamAperture := DEG2RAD (1/4), deltaPitch := 0,
    timestamp := 0, sensorLabel := "", m_cachedMap := none }

/-- The record produced by decoding the version 4 stream s4n1 into a default
constructed record. -/
def decoded4 : CObservation2DRangeScan :=
  { scan := [2], validRange := [true], intensity := [],
    aperture := 1, rightToLeft := true, maxRange := 10, sensorPose := 0,
    stdError := 2, beamAperture := 3, deltaPitch := 0,
    timestamp := 9, sensorLabel := "", m_cachedMap := none }

/-- The record produced by decoding the version 4 stream s4n1 into the record
exStale4 that holds a stale length 2 intensity array. -/
def decoded4stale : CObservation2DRangeScan :=
  { scan := [2], validRange := [true], intensity := [3, 4],
    aperture := 1, rightToLeft := true, maxRange := 10, sensorPose := 0,
    stdError := 2, beamAperture := 3, deltaPitch := 0,
    timestamp := 9, sensorLabel := "", m_cachedMap := none }

/-- The record produced by decoding the version 7 stream s7flagFalse (whose
has-intensity flag is false) into the record exStale7 that holds a stale
nonempty intensity array. -/
def decoded7stale : CObservation2DRangeScan :=
  { scan := [2], validRange := [true], intensity := [5],
    aperture := 1, rightToLeft := true, maxRange := 10, sensorPose := 0,
    stdError := 2, beamAperture := 3, deltaPitch := 4,
    timestamp := 9, sensorLabel := "L", m_cachedMap := none }

end MRPTObs

namespace MRPTObs

/-- Setting index i to false changes only position i, and only when it is in
range. -/
theorem getD_set_false (v : List Bool) (i j : ℕ) (d : Bool) :
    (v.set i false).getD j d =
      if i = j ∧ j < v.length then false else v.getD j d := by
  rcases Decidable.em (i = j) with h | h
  · subst h
    by_cases hj : i < v.length
    · simp [List.getD_eq_getElem?_getD, List.getElem?_set_self, hj,
        List.getElem?_eq_getElem hj]
    · simp [List.getD_eq_getElem?_getD, hj,
        List.set_eq_of_length_le (Nat.le_of_not_lt hj)]
  · simp [List.getD_eq_getElem?_getD, List.getElem?_set_ne h, h]

/-- A fold of unconditional false writes preserves the length. -/
theorem length_foldl_set (l : List ℕ) (v : List Bool) :
    (l.foldl (fun w i => w.set i false) v).length = v.length := by
  induction l generalizing v with
  | nil => rfl
  | cons a t ih => simp only [List.foldl_cons]; rw [ih, List.length_set]

/-- A fold of unconditional false writes, pointwise: position j becomes false
exactly when j is one of the written indices and is in range. -/
theorem getD_foldl_set (l : List ℕ) (v : List Bool) (j : ℕ) (d : Bool) :
    (l.foldl (fun w i => w.set i false) v).getD j d =
      if j ∈ l ∧ j < v.length then false else v.getD j d := by
  induction l generalizing v with
  | nil => simp
  | cons a t ih =>
    simp only [List.foldl_cons]
    rw [ih, List.length_set, getD_set_false]
    by_cases hl : j < v.length
    · by_cases ha : a = j
      · subst ha; simp [hl]
      · have ha' : ¬ j = a := fun h => ha h.symm
        by_cases ht : j ∈ t <;> simp [hl, ha, ha', ht, List.mem_cons]
    · simp [hl]

/-- setFalseRun writes false exactly on [lo, lo+len) within range. -/
theorem setFalseRun_getD (v : List Bool) (lo len j : ℕ) (d : Bool) :
    (setFalseRun v lo len).getD j d =
      if (lo ≤ j ∧ j < lo + len) ∧ j < v.length then false else v.getD j d := by
  unfold setFalseRun
  rw [getD_foldl_set]
  simp only [List.mem_range'_1]

/-- setFalseRun preserves the length. -/
theorem setFalseRun_length (v : List Bool) (lo len : ℕ) :
    (setFalseRun v lo len).length = v.length :=
  length_foldl_set _ _

/-- applyExclusionPair preserves the length. -/
theorem applyExclusionPair_length (ang dA : ℚ) (n : ℕ) (pr : ℚ × ℚ)
    (v : List Bool) : (applyExclusionPair ang dA n pr v).length = v.length := by
  unfold applyExclusionPair
  by_cases h : (exclIdx ang dA n pr.1).toNat ≤ (exclIdx ang dA n pr.2).toNat <;>
    simp [h, setFalseRun_length]

/-- A fold of conditional false writes preserves the length. -/
theorem length_foldl_cond_set (c : ℕ → Bool) (l : List ℕ) (v : List Bool) :
    (l.foldl (fun w i => if c i then w.set i false else w) v).length =
      v.length := by
  induction l generalizing v with
  | nil => rfl
  | cons a t ih =>
    simp only [List.foldl_cons]
    by_cases h : c a = true <;> simp [h, ih, List.length_set]

/-- A fold of conditional false writes, pointwise: position j becomes false
exactly when j is among the visited indices, its condition holds, and it is in
range. -/
theorem getD_foldl_cond_set (c : ℕ → Bool) (l : List ℕ) (v : List Bool)
    (j : ℕ) (d : Bool) :
    (l.foldl (fun w i => if c i then w.set i false else w) v).getD j d =
      if j ∈ l ∧ c j = true ∧ j < v.length then false else v.getD j d := by
  induction l generalizing v with
  | nil => simp
  | cons a t ih =>
    simp only [List.foldl_cons]
    by_cases hca : c a = true
    · rw [if_pos hca, ih, List.length_set, getD_set_false]
      by_cases hl : j < v.length
      · by_cases ha : a = j
        · subst ha; simp [hl, hca]
        · have ha' : ¬ j = a := fun h => ha h.symm
          by_cases ht : j ∈ t <;> simp [hl, ha, ha', ht, List.mem_cons]
      · simp [hl]
    · rw [if_neg hca, ih]
      by_cases hl : j < v.length
      · by_cases ha : a = j
        · subst ha
          by_cases ht : a ∈ t <;> simp [hl, hca, ht, List.mem_cons]
        · have ha' : ¬ j = a := fun h => ha h.symm
          by_cases ht : j ∈ t <;> simp [hl, ha', ht, List.mem_cons]
      · simp [hl]

/-- C6: for each exclusion pair, writing through the two clamped endpoint
indices idx_ini and idx_end (both in [0, N-1]) on a validity array of length
N invalidates the inclusive run [idx_ini, idx_end] when idx_end >= idx_ini,
and the two runs [0, idx_end) and [idx_ini, N-1] when idx_end < idx_ini; any
other entry keeps its previous value. -/
theorem applyExclusionPair_runs (ang dA : ℚ) (n : ℕ) (pr : ℚ × ℚ)
    (v : List Bool) (hv : v.length = n)
    (h0 : (exclIdx ang dA n pr.1).toNat < n)
    (h1 : (exclIdx ang dA n pr.2).toNat < n) :
    ∀ j, j < n →
      (applyExclusionPair ang dA n pr v).getD j true =
        if ((exclIdx ang dA n pr.1).toNat ≤ (exclIdx ang dA n pr.2).toNat ∧
              (exclIdx ang dA n pr.1).toNat ≤ j ∧
              j ≤ (exclIdx ang dA n pr.2).toNat) ∨
            ((exclIdx ang dA n pr.2).toNat < (exclIdx ang dA n pr.1).toNat ∧
              (j < (exclIdx ang dA n pr.2).toNat ∨
                (exclIdx ang dA n pr.1).toNat ≤ j))
        then false else v.getD j true := by
  intro j hj
  simp only [applyExclusionPair]
  by_cases hle : (exclIdx ang dA n pr.1).toNat ≤ (exclIdx ang dA n pr.2).toNat
  · rw [if_pos hle, setFalseRun_getD]
    split_ifs <;> first | rfl | omega
  · rw [if_neg hle, setFalseRun_getD, setFalseRun_length, setFalseRun_getD]
    split_ifs <;> first | rfl | omega

/-- C6 witness: with start angle -pi/2, step pi/2 and N = 3 the pair
(0, pi/4) maps to the clamped indices (1, 1) and invalidates exactly ray 1. -/
theorem applyExclusionPair_runs_witness :
    (applyExclusionPair (-(1/2)) (1/2) 3 ((0 : ℚ), (1/4 : ℚ))
        [true, true, true]).getD 1 true = false ∧
      (applyExclusionPair (-(1/2)) (1/2) 3 ((0 : ℚ), (1/4 : ℚ))
        [true, true, true]).getD 2 true = true := by
  have h1 := applyExclusionPair_runs (-(1/2)) (1/2) 3 ((0 : ℚ), (1/4 : ℚ))
    [true, true, true] (by simp)
    (by norm_num [exclIdx, cppTruncToInt, wrapTo2Pi])
    (by norm_num [exclIdx, cppTruncToInt, wrapTo2Pi]) 1 (by norm_num)
  have h2 := applyExclusionPair_runs (-(1/2)) (1/2) 3 ((0 : ℚ), (1/4 : ℚ))
    [true, true, true] (by simp)
    (by norm_num [exclIdx, cppTruncToInt, wrapTo2Pi])
    (by norm_num [exclIdx, cppTruncToInt, wrapTo2Pi]) 2 (by norm_num)
  rw [h1, h2]
  norm_num [exclIdx, cppTruncToInt, wrapTo2Pi]

/-- C2 (evaluating the failing input): with N = 3 rays, aperture pi and a
right to left sweep, the excluded angle 5*pi/4 maps to the raw index
trunc(wrapTo2Pi(5*pi/4 + pi/2) / (pi/2)) = trunc(3.5) = 3 = N, and the
source's clamp (which only lowers values strictly greater than N) lets it
through, so it is not in [0, N-1]. -/
theorem exclIdx_reaches_N :
    exclIdx (exclAng0 1 true) (exclDA 1 true 3) 3 (5/4) = 3 ∧
      ¬ (exclIdx (exclAng0 1 true) (exclDA 1 true 3) 3 (5/4)).toNat ≤ 3 - 1 := by
  have h : exclIdx (exclAng0 1 true) (exclDA 1 true 3) 3 (5/4) = 3 := by
    norm_num [exclIdx, exclAng0, exclDA, cppTruncToInt, wrapTo2Pi]
  refine ⟨h, ?_⟩
  rw [h]
  norm_num

/-- C3 counterexample: with N = 3 rays and aperture pi, the truncation filter
tests ray 2 against fabs(2*aperture/3 - aperture/2) = pi/6, while the
ScanGeometry deviation fabs(A0 + 2*dA) is pi/2.  With maxAngle = pi/3 and no
other bound the filter therefore keeps ray 2 valid (and ray 1), invalidating
only ray 0, although the claimed angle of ray 2 exceeds maxAngle. -/
theorem truncate_angle_counterexample :
    truncAng 1 3 2 = 1/6 ∧ fabs (specScanAngle 1 true 3 2) = 1/2 ∧
      truncAng 1 3 2 ≠ fabs (specScanAngle 1 true 3 2) ∧
      truncateByDistanceAndAngle (fun _ => 0) 0 (1/3) 0 0 0 ex3 =
        Except.ok { ex3 with validRange := [false, true, true] } ∧
      ¬ fabs (specScanAngle 1 true 3 2) ≤ 1/3 := by
  refine ⟨?_, ?_, ?_, ?_, ?_⟩
  · norm_num [truncAng, fabs]
  · norm_num [specScanAngle, fabs]
  · norm_num [truncAng, specScanAngle, fabs]
  · have hr : List.range 3 = [0, 1, 2] := rfl
    norm_num [truncateByDistanceAndAngle, ex3, defaultObs, hr,
      truncInvalidates, truncAng, fabs]
  · norm_num [specScanAngle, fabs]

/-- C3 amended: in the truncation filter the angle tested against maxAngle at
ray k is fabs(k*aperture/N - aperture/2) - a step of aperture/N about the
midpoint, independent of the scan direction, not the ScanGeometry angle with
step aperture/(N-1) - and the forward projection for the height band is
x = r*cos(ang) at that same angle; each ray is invalidated exactly when the
truncation condition over these quantities holds, and no other entry
changes. -/
theorem truncate_pointwise (cosQ : ℚ → ℚ)
    (min_distance max_angle min_height max_height h : ℚ)
    (o : CObservation2DRangeScan)
    (hband : ¬ ((min_height ≠ 0 ∨ max_height ≠ 0) ∧
      ¬ max_height > min_height ∧ o.scan ≠ []))
    (hlen : o.validRange.length = o.scan.length) :
    ∃ o', truncateByDistanceAndAngle cosQ min_distance max_angle min_height
        max_height h o = Except.ok o' ∧
      o'.scan = o.scan ∧ o'.intensity = o.intensity ∧
      o'.validRange.length = o.validRange.length ∧
      ∀ k, k < o.scan.length →
        o'.validRange.getD k true =
          if o.scan.getD k 0 < min_distance ∨
              fabs ((k : ℚ) * o.aperture / (o.scan.length : ℚ) -
                o.aperture * (1/2)) > max_angle ∨
              ((min_height ≠ 0 ∨ max_height ≠ 0) ∧
                (o.scan.getD k 0 * cosQ (fabs ((k : ℚ) * o.aperture /
                    (o.scan.length : ℚ) - o.aperture * (1/2))) >
                  h - min_height ∨
                 o.scan.getD k 0 * cosQ (fabs ((k : ℚ) * o.aperture /
                    (o.scan.length : ℚ) - o.aperture * (1/2))) <
                  h - max_height))
          then false else o.validRange.getD k true := by
  have heq : truncateByDistanceAndAngle cosQ min_distance max_angle min_height
      max_height h o =
      Except.ok { o with validRange := (List.range o.scan.length).foldl (fun v k =>
        if truncInvalidates cosQ min_distance max_angle min_height
            max_height h o.aperture o.scan.length k (o.scan.getD k 0)
        then v.set k false else v) o.validRange } := by
    unfold truncateByDistanceAndAngle
    rw [if_neg hband]
  refine ⟨_, heq, rfl, rfl, ?_, ?_⟩
  · exact length_foldl_cond_set _ _ _
  · intro k hk
    rw [getD_foldl_cond_set]
    have hmem : k ∈ List.range o.scan.length := List.mem_range.mpr hk
    have hklen : k < o.validRange.length := by rw [hlen]; exact hk
    simp only [hmem, hklen, and_true, true_and]
    refine if_congr ?_ rfl rfl
    by_cases hb : min_height ≠ 0 ∨ max_height ≠ 0 <;>
      simp [truncInvalidates, truncAng, hb, decide_eq_true_eq, or_assoc]

/-- readF32Buf yields a list of exactly the requested length. -/
theorem readF32Buf_length (n : ℕ) (s : List StreamItem) (xs : List ℚ)
    (s' : List StreamItem) (h : readF32Buf n s = some (xs, s')) :
    xs.length = n := by
  unfold readF32Buf at h
  split at h
  next ys t =>
    by_cases hl : ys.length = n
    · rw [if_pos hl] at h
      simp only [Option.some.injEq, Prod.mk.injEq] at h
      rw [← h.1]
      exact hl
    · rw [if_neg hl] at h
      cases h
  next => cases h

/-- readByteBuf yields a list of exactly the requested length. -/
theorem readByteBuf_length (n : ℕ) (s : List StreamItem) (xs : List Bool)
    (s' : List StreamItem) (h : readByteBuf n s = some (xs, s')) :
    xs.length = n := by
  unfold readByteBuf at h
  split at h
  next ys t =>
    by_cases hl : ys.length = n
    · rw [if_pos hl] at h
      simp only [Option.some.injEq, Prod.mk.injEq] at h
      rw [← h.1]
      exact hl
    · rw [if_neg hl] at h
      cases h
  next => cases h

/-- readScanBuf yields a list of exactly the requested length. -/
theorem readScanBuf_length (n : ℕ) (s : List StreamItem) (xs : List ℚ)
    (s' : List StreamItem) (h : readScanBuf n s = some (xs, s')) :
    xs.length = n := by
  unfold readScanBuf at h
  by_cases hn : n = 0
  · rw [if_pos hn] at h
    simp only [Option.some.injEq, Prod.mk.injEq] at h
    rw [← h.1, hn]
    rfl
  · rw [if_neg hn] at h
    exact readF32Buf_length _ _ _ _ h

/-- The validity step of the old branch yields a list of length N, and for
version 0 it is the default fill against maxRange. -/
theorem readValidV_spec (version : ℤ) (n : ℕ) (scan : List ℚ) (maxRange : ℚ)
    (s : List StreamItem) (vr : List Bool) (s' : List StreamItem)
    (hscan : scan.length = n)
    (h : readValidV version n scan maxRange s = some (vr, s')) :
    vr.length = n ∧
      (version < 1 → vr = scan.map (fun x => decide (x < maxRange))) := by
  unfold readValidV at h
  by_cases hv : 1 ≤ version
  · rw [if_pos hv] at h
    refine ⟨?_, fun hlt => absurd hv (by omega)⟩
    by_cases hn : n = 0
    · rw [if_pos hn] at h
      simp only [Option.some.injEq, Prod.mk.injEq] at h
      rw [← h.1, hn]
      rfl
    · rw [if_neg hn] at h
      exact readByteBuf_length _ _ _ _ h
  · rw [if_neg hv] at h
    simp only [Option.some.injEq, Prod.mk.injEq] at h
    exact ⟨by rw [← h.1]; simp [hscan], fun _ => h.1.symm⟩

/-- The stdError step of the old branch defaults to 0.01 below version 2. -/
theorem readStdErrV_spec (version : ℤ) (s : List StreamItem) (se : ℚ)
    (s' : List StreamItem) (h : readStdErrV version s = some (se, s')) :
    version < 2 → se = 1/100 := by
  intro hlt
  unfold readStdErrV at h
  rw [if_neg (by omega : ¬ 2 ≤ version)] at h
  simp only [Option.some.injEq, Prod.mk.injEq] at h
  exact h.1.symm

/-- The timestamp step of the old branch keeps the previous value below
version 3. -/
theorem readTsV_spec (version : ℤ) (old : ℕ) (s : List StreamItem) (ts : ℕ)
    (s' : List StreamItem) (h : readTsV version old s = some (ts, s')) :
    version < 3 → ts = old := by
  intro hlt
  unfold readTsV at h
  rw [if_neg (by omega : ¬ 3 ≤ version)] at h
  simp only [Option.some.injEq, Prod.mk.injEq] at h
  exact h.1.symm

/-- The combined scan / validity step of the new branch yields two lists of
length N. -/
theorem readScanValid_spec (n : ℕ) (s : List StreamItem)
    (p : List ℚ × List Bool) (s' : List StreamItem)
    (h : readScanValid n s = some (p, s')) :
    p.1.length = n ∧ p.2.length = n := by
  unfold readScanValid at h
  by_cases hn : n = 0
  · rw [if_pos hn] at h
    simp only [Option.some.injEq, Prod.mk.injEq] at h
    rw [← h.1, hn]
    exact ⟨rfl, rfl⟩
  · rw [if_neg hn] at h
    rw [Option.bind_eq_bind', Option.bind_eq_some] at h
    obtain ⟨⟨sc, s1⟩, h1, h⟩ := h
    dsimp only at h
    rw [Option.bind_eq_bind', Option.bind_eq_some] at h
    obtain ⟨⟨vr, s2⟩, h2, h⟩ := h
    dsimp only at h
    simp only [Option.some.injEq, Prod.mk.injEq] at h
    rw [← h.1]
    exact ⟨readF32Buf_length _ _ _ _ h1, readByteBuf_length _ _ _ _ h2⟩

/-- The sensorLabel / deltaPitch step of the new branch yields the defaults ""
and 0 below version 5. -/
theorem readLabelPitchV_spec (version : ℤ) (s : List StreamItem)
    (p : String × ℚ) (s' : List StreamItem)
    (h : readLabelPitchV version s = some (p, s')) :
    version < 5 → p = ("", 0) := by
  intro hlt
  unfold readLabelPitchV at h
  rw [if_neg (by omega : ¬ 5 ≤ version)] at h
  simp only [Option.some.injEq, Prod.mk.injEq] at h
  exact h.1.symm

/-- The version 7 intensity step either keeps the old array (flag unset or
N = 0) or reads a fresh array of length N with N nonzero. -/
theorem readIntensityV7_spec (n : ℕ) (old : List ℚ) (s : List StreamItem)
    (inten : List ℚ) (s' : List StreamItem)
    (h : readIntensityV7 n old s = some (inten, s')) :
    inten = old ∨ (inten.length = n ∧ n ≠ 0) := by
  unfold readIntensityV7 at h
  rw [Option.bind_eq_bind', Option.bind_eq_some] at h
  obtain ⟨⟨flag, s1⟩, h1, h⟩ := h
  dsimp only at h
  by_cases hf : flag = true ∧ n ≠ 0
  · rw [if_pos hf] at h
    exact Or.inr ⟨readF32Buf_length _ _ _ _ h, hf.2⟩
  · rw [if_neg hf] at h
    simp only [Option.some.injEq, Prod.mk.injEq] at h
    exact Or.inl h.1.symm

/-- The intensity step of the new branch: below version 7 the array is always
kept; at version 7 it is kept or freshly read at length N with N nonzero. -/
theorem readIntensityV_spec (version : ℤ) (n : ℕ) (old : List ℚ)
    (s : List StreamItem) (inten : List ℚ) (s' : List StreamItem)
    (h : readIntensityV version n old s = some (inten, s')) :
    (inten = old ∨ (inten.length = n ∧ n ≠ 0)) ∧
      (version < 7 → inten = old) := by
  unfold readIntensityV at h
  by_cases hv : 7 ≤ version
  · rw [if_pos hv] at h
    exact ⟨readIntensityV7_spec _ _ _ _ _ h, fun hlt => absurd hv (by omega)⟩
  · rw [if_neg hv] at h
    simp only [Option.some.injEq, Prod.mk.injEq] at h
    exact ⟨Or.inl h.1.symm, fun _ => h.1.symm⟩

/-- Inversion of the versions 0 to 3 decode branch: the produced record is a
wholesale update of the previous one with equal scan and validity lengths, the
fixed defaults for beamAperture, deltaPitch and sensorLabel, the version 0
validity fill, the below version 2 stdError default and the below version 3
untouched timestamp; the intensity array is never touched. -/
theorem readV03_inversion (version : ℤ) (r r' : CObservation2DRangeScan)
    (s0 s' : List StreamItem) (h : readV03 version r s0 = some (r', s')) :
    ∃ ap rtl mr sp scn vr se ts,
      r' = { r with aperture := ap, rightToLeft := rtl, maxRange := mr, sensorPose := sp, scan := scn, validRange := vr, stdError := se, timestamp := ts, beamAperture := DEG2RAD (1/4), deltaPitch := 0, sensorLabel := "" } ∧
      vr.length = scn.length ∧
      (version < 1 → vr = scn.map (fun x => decide (x < mr))) ∧
      (version < 2 → se = 1/100) ∧
      (version < 3 → ts = r.timestamp) := by
  rw [readV03] at h
  rw [Option.bind_eq_bind', Option.bind_eq_some] at h
  obtain ⟨⟨ap, s1⟩, h1, h⟩ := h
  dsimp only at h
  rw [Option.bind_eq_bind', Option.bind_eq_some] at h
  obtain ⟨⟨rtl, s2⟩, h2, h⟩ := h
  dsimp only at h
  rw [Option.bind_eq_bind', Option.bind_eq_some] at h
  obtain ⟨⟨mr, s3⟩, h3, h⟩ := h
  dsimp only at h
  rw [Option.bind_eq_bind', Option.bind_eq_some] at h
  obtain ⟨⟨sp, s4⟩, h4, h⟩ := h
  dsimp only at h
  rw [Option.bind_eq_bind', Option.bind_eq_some] at h
  obtain ⟨⟨cov, s5⟩, h5, h⟩ := h
  dsimp only at h
  rw [Option.bind_eq_bind', Option.bind_eq_some] at h
  obtain ⟨⟨n, s6⟩, h6, h⟩ := h
  dsimp only at h
  rw [Option.bind_eq_bind', Option.bind_eq_some] at h
  obtain ⟨⟨scn, s7⟩, h7, h⟩ := h
  dsimp only at h
  rw [Option.bind_eq_bind', Option.bind_eq_some] at h
  obtain ⟨⟨vr, s8⟩, h8, h⟩ := h
  dsimp only at h
  rw [Option.bind_eq_bind', Option.bind_eq_some] at h
  obtain ⟨⟨se, s9⟩, h9, h⟩ := h
  dsimp only at h
  rw [Option.bind_eq_bind', Option.bind_eq_some] at h
  obtain ⟨⟨ts, s10⟩, h10, h⟩ := h
  dsimp only at h
  simp only [Option.some.injEq, Prod.mk.injEq] at h
  have hs := readScanBuf_length _ _ _ _ h7
  have hv := readValidV_spec _ _ _ _ _ _ _ hs h8
  refine ⟨ap, rtl, mr, sp, scn, vr, se, ts, h.1.symm, ?_, hv.2,
    readStdErrV_spec _ _ _ _ h9, readTsV_spec _ _ _ _ _ h10⟩
  rw [hv.1, hs]

/-- Inversion of the versions 4 to 7 decode branch: the produced record is a
wholesale update of the previous one with equal scan and validity lengths, the
below version 5 defaults for sensorLabel and deltaPitch, an intensity array
untouched below version 7 and in general either untouched or freshly read at
the scan's length. -/
theorem readV47_inversion (version : ℤ) (r r' : CObservation2DRangeScan)
    (s0 s' : List StreamItem) (h : readV47 version r s0 = some (r', s')) :
    ∃ ap rtl mr sp p se ts ba lp inten,
      r' = { r with aperture := ap, rightToLeft := rtl, maxRange := mr, sensorPose := sp, scan := (p : List ℚ × List Bool).1, validRange := p.2, stdError := se, timestamp := ts, beamAperture := ba, sensorLabel := (lp : String × ℚ).1, deltaPitch := lp.2, intensity := inten } ∧
      p.2.length = p.1.length ∧
      (version < 5 → lp = ("", 0)) ∧
      (version < 7 → inten = r.intensity) ∧
      (inten = r.intensity ∨
        (inten.length = p.1.length ∧ p.1.length ≠ 0)) := by
  rw [readV47] at h
  rw [Option.bind_eq_bind', Option.bind_eq_some] at h
  obtain ⟨⟨ap, s1⟩, h1, h⟩ := h
  dsimp only at h
  rw [Option.bind_eq_bind', Option.bind_eq_some] at h
  obtain ⟨⟨rtl, s2⟩, h2, h⟩ := h
  dsimp only at h
  rw [Option.bind_eq_bind', Option.bind_eq_some] at h
  obtain ⟨⟨mr, s3⟩, h3, h⟩ := h
  dsimp only at h
  rw [Option.bind_eq_bind', Option.bind_eq_some] at h
  obtain ⟨⟨sp, s4⟩, h4, h⟩ := h
  dsimp only at h
  rw [Option.bind_eq_bind', Option.bind_eq_some] at h
  obtain ⟨⟨cov, s5⟩, h5, h⟩ := h
  dsimp only at h
  rw [Option.bind_eq_bind', Option.bind_eq_some] at h
  obtain ⟨⟨n, s6⟩, h6, h⟩ := h
  dsimp only at h
  rw [Option.bind_eq_bind', Option.bind_eq_some] at h
  obtain ⟨⟨p, s7⟩, h7, h⟩ := h
  dsimp only at h
  rw [Option.bind_eq_bind', Option.bind_eq_some] at h
  obtain ⟨⟨se, s8⟩, h8, h⟩ := h
  dsimp only at h
  rw [Option.bind_eq_bind', Option.bind_eq_some] at h
  obtain ⟨⟨ts, s9⟩, h9, h⟩ := h
  dsimp only at h
  rw [Option.bind_eq_bind', Option.bind_eq_some] at h
  obtain ⟨⟨ba, s10⟩, h10, h⟩ := h
  dsimp only at h
  rw [Option.bind_eq_bind', Option.bind_eq_some] at h
  obtain ⟨⟨lp, s11⟩, h11, h⟩ := h
  dsimp only at h
  rw [Option.bind_eq_bind', Option.bind_eq_some] at h
  obtain ⟨⟨inten, s12⟩, h12, h⟩ := h
  dsimp only at h
  simp only [Option.some.injEq, Prod.mk.injEq] at h
  have hsv := readScanValid_spec _ _ _ _ h7
  have hi := readIntensityV_spec _ _ _ _ _ _ h12
  refine ⟨ap, rtl, mr, sp, p, se, ts, ba, lp, inten, h.1.symm, ?_,
    readLabelPitchV_spec _ _ _ _ h11, hi.2, ?_⟩
  · rw [hsv.1, hsv.2]
  · rcases hi.1 with hold | hnew
    · exact Or.inl hold
    · exact Or.inr ⟨by rw [hsv.1]; exact hnew.1, by rw [hsv.1]; exact hnew.2⟩

/-- C3 amended witness: on the concrete three ray record, ray 0 is tested at
angle fabs(0 - 1/2) = pi/2 > pi/3 and invalidated. -/
theorem truncate_pointwise_witness :
    ∃ o', truncateByDistanceAndAngle (fun _ => 0) 0 (1/3) 0 0 0 ex3 =
        Except.ok o' ∧ o'.validRange.getD 0 true = false := by
  obtain ⟨o', heq, -, -, -, hpt⟩ :=
    truncate_pointwise (fun _ => 0) 0 (1/3) 0 0 0 ex3 (by norm_num)
      (by norm_num [ex3, defaultObs])
  refine ⟨o', heq, ?_⟩
  rw [hpt 0 (by norm_num [ex3, defaultObs])]
  norm_num [ex3, defaultObs, fabs]

/-- Inversion of the readFromStream dispatch: a successful decode went through
exactly one of the two version branches, with the cached map cleared at the
end. -/
theorem readFromStream_ok_inversion (version : ℤ) (s : List StreamItem)
    (r0 r : CObservation2DRangeScan)
    (h : readFromStream version s r0 = Except.ok r) :
    (∃ r' s', readV03 version r0 s = some (r', s') ∧
      r = { r' with m_cachedMap := none } ∧ 0 ≤ version ∧ version ≤ 3) ∨
    (∃ r' s', readV47 version r0 s = some (r', s') ∧
      r = { r' with m_cachedMap := none } ∧ 4 ≤ version ∧ version ≤ 7) := by
  unfold readFromStream at h
  by_cases h03 : 0 ≤ version ∧ version ≤ 3
  · rw [if_pos h03] at h
    cases hm : readV03 version r0 s with
    | none => rw [hm] at h; cases h
    | some p =>
      obtain ⟨r', s'⟩ := p
      rw [hm] at h
      simp only [Except.ok.injEq] at h
      exact Or.inl ⟨r', s', rfl, h.symm, h03⟩
  · rw [if_neg h03] at h
    by_cases h47 : 4 ≤ version ∧ version ≤ 7
    · rw [if_pos h47] at h
      cases hm : readV47 version r0 s with
      | none => rw [hm] at h; cases h
      | some p =>
        obtain ⟨r', s'⟩ := p
        rw [hm] at h
        simp only [Except.ok.injEq] at h
        exact Or.inr ⟨r', s', rfl, h.symm, h47⟩
    · rw [if_neg h47] at h
      cases h

/-- C7: readFromStream fails with the unknown serialization version error
exactly when the version tag lies outside [0, 7]; for such a tag the failure
happens in the dispatch itself, independently of the stream and of the prior
record, so no field is assigned. -/
theorem readFromStream_unknownVersion (version : ℤ) (s : List StreamItem)
    (r : CObservation2DRangeScan) :
    readFromStream version s r = Except.error CodecError.unknownVersion ↔
      version < 0 ∨ 7 < version := by
  unfold readFromStream
  by_cases h03 : 0 ≤ version ∧ version ≤ 3
  · rw [if_pos h03]
    constructor
    · intro h
      cases hm : readV03 version r s with
      | none => rw [hm] at h; exact absurd h (by simp)
      | some p =>
        obtain ⟨r', s'⟩ := p
        rw [hm] at h
        exact absurd h (by simp)
    · intro h
      exact absurd h (by omega)
  · rw [if_neg h03]
    by_cases h47 : 4 ≤ version ∧ version ≤ 7
    · rw [if_pos h47]
      constructor
      · intro h
        cases hm : readV47 version r s with
        | none => rw [hm] at h; exact absurd h (by simp)
        | some p =>
          obtain ⟨r', s'⟩ := p
          rw [hm] at h
          exact absurd h (by simp)
      · intro h
        exact absurd h (by omega)
    · rw [if_neg h47]
      exact ⟨fun _ => by omega, fun _ => rfl⟩

/-- C10: decoding a version 0, 1 or 2 stream never touches the timestamp:
whatever timestamp the record held before the decode persists. -/
theorem readFromStream_v012_timestamp (version : ℤ) (s : List StreamItem)
    (r0 r : CObservation2DRangeScan) (hv : 0 ≤ version ∧ version ≤ 2)
    (h : readFromStream version s r0 = Except.ok r) :
    r.timestamp = r0.timestamp := by
  rcases readFromStream_ok_inversion version s r0 r h with
    ⟨r', s', hm, hr, -⟩ | ⟨r', s', hm, hr, h47, -⟩
  · obtain ⟨ap, rtl, mr, sp, scn, vr, se, ts, hr', -, -, -, hts⟩ :=
      readV03_inversion version r0 r' s s' hm
    rw [hr, hr']
    exact hts (by omega)
  · exact absurd h47 (by omega)

/-- C10 witness: the version 1 stream s1n1 decodes into the default record
with its timestamp 0 untouched. -/
theorem readFromStream_v012_timestamp_witness :
    readFromStream 1 s1n1 defaultObs = Except.ok decoded1 ∧
      decoded1.timestamp = defaultObs.timestamp :=
  ⟨rfl, readFromStream_v012_timestamp 1 s1n1 defaultObs decoded1
    (by norm_num) rfl⟩

/-- C5: decoding a version 0 stream fills validity as ranges[i] < maxRange,
stdError as 0.01, beamAperture as 0.25 degrees in radians, pitchIncrement as 0
and sensorLabel as ""; decoding a version 4 stream fills sensorLabel as "" and
pitchIncrement as 0. -/
theorem readFromStream_default_filling :
    (∀ s r0 r, readFromStream 0 s r0 = Except.ok r →
      r.validRange = r.scan.map (fun x => decide (x < r.maxRange)) ∧
      r.stdError = 1/100 ∧ r.beamAperture = DEG2RAD (1/4) ∧
      r.deltaPitch = 0 ∧ r.sensorLabel = "") ∧
    (∀ s r0 r, readFromStream 4 s r0 = Except.ok r →
      r.sensorLabel = "" ∧ r.deltaPitch = 0) := by
  constructor
  · intro s r0 r h
    rcases readFromStream_ok_inversion 0 s r0 r h with
      ⟨r', s', hm, hr, -⟩ | ⟨r', s', hm, hr, h47, -⟩
    · obtain ⟨ap, rtl, mr, sp, scn, vr, se, ts, hr', -, hfill, hse, -⟩ :=
        readV03_inversion 0 r0 r' s s' hm
      rw [hr, hr']
      exact ⟨hfill (by norm_num), hse (by norm_num), rfl, rfl, rfl⟩
    · exact absurd h47 (by omega)
  · intro s r0 r h
    rcases readFromStream_ok_inversion 4 s r0 r h with
      ⟨r', s', hm, hr, -, h3⟩ | ⟨r', s', hm, hr, -⟩
    · exact absurd h3 (by omega)
    · obtain ⟨ap, rtl, mr, sp, p, se, ts, ba, lp, inten, hr', -, hlp, -, -⟩ :=
        readV47_inversion 4 r0 r' s s' hm
      rw [hr, hr']
      have h5 := hlp (by norm_num)
      rw [h5]
      exact ⟨rfl, rfl⟩

/-- C5 witness: the version 0 stream s0n2 and the version 4 stream s4n1,
decoded into a default record, exhibit the default filled fields. -/
theorem readFromStream_default_filling_witness :
    readFromStream 0 s0n2 defaultObs = Except.ok decoded0 ∧
      decoded0.validRange =
        decoded0.scan.map (fun x => decide (x < decoded0.maxRange)) ∧
      decoded0.stdError = 1/100 ∧
      readFromStream 4 s4n1 defaultObs = Except.ok decoded4 ∧
      decoded4.sensorLabel = "" ∧ decoded4.deltaPitch = 0 := by
  have h0 := (readFromStream_default_filling.1 s0n2 defaultObs decoded0 rfl)
  have h4 := (readFromStream_default_filling.2 s4n1 defaultObs decoded4 rfl)
  exact ⟨rfl, h0.1, h0.2.1, rfl, h4.1, h4.2⟩

/-- C4 amended: decoding any version below 7 leaves the intensity array
unchanged (so it is empty exactly when it was empty before the decode, as for
a freshly constructed record), and the version 7 intensity step with a false
has-intensity flag likewise leaves it unchanged. -/
theorem readFromStream_intensity_unchanged :
    (∀ version s r0 r, 0 ≤ version → version < 7 →
      readFromStream version s r0 = Except.ok r →
      r.intensity = r0.intensity) ∧
    (∀ (n : ℕ) (old : List ℚ) (s : List StreamItem),
      readIntensityV7 n old (StreamItem.boolItem false :: s) =
        some (old, s)) := by
  constructor
  · intro version s r0 r h0 h7 h
    rcases readFromStream_ok_inversion version s r0 r h with
      ⟨r', s', hm, hr, -⟩ | ⟨r', s', hm, hr, -⟩
    · obtain ⟨ap, rtl, mr, sp, scn, vr, se, ts, hr', -, -, -, -⟩ :=
        readV03_inversion version r0 r' s s' hm
      rw [hr, hr']
    · obtain ⟨ap, rtl, mr, sp, p, se, ts, ba, lp, inten, hr', -, -, hint, -⟩ :=
        readV47_inversion version r0 r' s s' hm
      rw [hr, hr']
      exact hint h7
  · intro n old s
    simp [readIntensityV7, readBool]

/-- C4 amended witness: the version 4 stream s4n1 decoded into the default
record keeps its empty intensity array. -/
theorem readFromStream_intensity_unchanged_witness :
    readFromStream 4 s4n1 defaultObs = Except.ok decoded4 ∧
      decoded4.intensity = defaultObs.intensity :=
  ⟨rfl, readFromStream_intensity_unchanged.1 4 s4n1 defaultObs decoded4
    (by norm_num) (by norm_num) rfl⟩

/-- C4 counterexample: decoding a version 7 stream whose has-intensity flag is
false into a record holding the stale intensity array [5] yields a record
whose intensity array is still [5], not empty. -/
theorem readFromStream_v7_stale_intensity :
    readFromStream 7 s7flagFalse exStale7 = Except.ok decoded7stale ∧
      decoded7stale.intensity = [5] ∧ decoded7stale.intensity ≠ [] :=
  ⟨rfl, rfl, by simp [decoded7stale]⟩

/-- A fold whose step preserves the length preserves the length. -/
theorem length_foldl_preserve {α : Type} (f : List Bool → α → List Bool)
    (hf : ∀ v a, (f v a).length = v.length) :
    ∀ (l : List α) (v : List Bool), (l.foldl f v).length = v.length := by
  intro l
  induction l with
  | nil => intro v; rfl
  | cons a t ih =>
    intro v
    simp only [List.foldl_cons]
    rw [ih, hf]

/-- The per-ray exclusion area step preserves the length of the validity
array. -/
theorem exclusionAreaStep_length (cosQ sinQ : ℚ → ℚ)
    (cp : ℕ → ℚ × ℚ × ℚ → ℚ × ℚ × ℚ)
    (areas : List ((ℚ → ℚ → Bool) × ℚ × ℚ)) (o : CObservation2DRangeScan)
    (v : List Bool) (k : ℕ) :
    (exclusionAreaStep cosQ sinQ cp areas o v k).length = v.length := by
  unfold exclusionAreaStep
  split
  · dsimp only
    split
    · exact List.length_set v k false
    · rfl
  · rfl

/-- C8 amended: every successful decode yields equal scan and validity
lengths; a successful decode of a record whose intensity was empty beforehand
satisfies the full invariant; and all three exclusion filters preserve the
full invariant.  (A stale nonempty intensity array surviving a decode of a
version below 7 can break the intensity clause.) -/
theorem invariant_preservation :
    (∀ version s r0 r, readFromStream version s r0 = Except.ok r →
      r.scan.length = r.validRange.length) ∧
    (∀ version s r0 r, r0.intensity = [] →
      readFromStream version s r0 = Except.ok r → recInvariant r) ∧
    (∀ cosQ md ma mh mH hh o o', recInvariant o →
      truncateByDistanceAndAngle cosQ md ma mh mH hh o = Except.ok o' →
      recInvariant o') ∧
    (∀ cosQ sinQ cp areas o o', recInvariant o →
      filterByExclusionAreas cosQ sinQ cp areas o = Except.ok o' →
      recInvariant o') ∧
    (∀ angles o o', recInvariant o →
      filterByExclusionAngles angles o = Except.ok o' → recInvariant o') := by
  have hlen : ∀ version s r0 r, readFromStream version s r0 = Except.ok r →
      r.scan.length = r.validRange.length := by
    intro version s r0 r h
    rcases readFromStream_ok_inversion version s r0 r h with
      ⟨r', s', hm, hr, -⟩ | ⟨r', s', hm, hr, -⟩
    · obtain ⟨ap, rtl, mr, sp, scn, vr, se, ts, hr', hl, -, -, -⟩ :=
        readV03_inversion version r0 r' s s' hm
      rw [hr, hr']
      exact hl.symm
    · obtain ⟨ap, rtl, mr, sp, p, se, ts, ba, lp, inten, hr', hl, -, -, -⟩ :=
        readV47_inversion version r0 r' s s' hm
      rw [hr, hr']
      exact hl.symm
  refine ⟨hlen, ?_, ?_, ?_, ?_⟩
  · intro version s r0 r hemp h
    refine ⟨hlen version s r0 r h, ?_⟩
    rcases readFromStream_ok_inversion version s r0 r h with
      ⟨r', s', hm, hr, -⟩ | ⟨r', s', hm, hr, -⟩
    · obtain ⟨ap, rtl, mr, sp, scn, vr, se, ts, hr', -, -, -, -⟩ :=
        readV03_inversion version r0 r' s s' hm
      rw [hr, hr']
      exact Or.inl hemp
    · obtain ⟨ap, rtl, mr, sp, p, se, ts, ba, lp, inten, hr', -, -, -, hint⟩ :=
        readV47_inversion version r0 r' s s' hm
      rw [hr, hr']
      rcases hint with hold | hnew
      · exact Or.inl (hold.trans hemp)
      · exact Or.inr hnew.1
  · intro cosQ md ma mh mH hh o o' hinv h
    unfold truncateByDistanceAndAngle at h
    by_cases hb : (mh ≠ 0 ∨ mH ≠ 0) ∧ ¬ mH > mh ∧ o.scan ≠ []
    · rw [if_pos hb] at h
      cases h
    · rw [if_neg hb] at h
      simp only [Except.ok.injEq] at h
      rw [← h]
      exact ⟨by simpa [length_foldl_cond_set] using hinv.1, hinv.2⟩
  · intro cosQ sinQ cp areas o o' hinv h
    unfold filterByExclusionAreas at h
    by_cases he : areas.isEmpty
    · rw [if_pos he] at h
      simp only [Except.ok.injEq] at h
      rw [← h]
      exact hinv
    · rw [if_neg he] at h
      by_cases hl : o.scan.length = o.validRange.length
      · rw [if_pos hl] at h
        by_cases hz : o.scan.length = 0
        · rw [if_pos hz] at h
          simp only [Except.ok.injEq] at h
          rw [← h]
          exact hinv
        · rw [if_neg hz] at h
          simp only [Except.ok.injEq] at h
          rw [← h]
          refine ⟨?_, hinv.2⟩
          rw [length_foldl_preserve (exclusionAreaStep cosQ sinQ cp areas o)
            (fun v k => exclusionAreaStep_length cosQ sinQ cp areas o v k)
            (List.range o.scan.length) o.validRange]
          exact hinv.1
      · rw [if_neg hl] at h
        cases h
  · intro angles o o' hinv h
    unfold filterByExclusionAngles at h
    by_cases he : angles = []
    · rw [if_pos he] at h
      simp only [Except.ok.injEq] at h
      rw [← h]
      exact hinv
    · rw [if_neg he] at h
      by_cases hl : o.scan.length = o.validRange.length
      · rw [if_pos hl] at h
        by_cases hz : o.scan.length = 0
        · rw [if_pos hz] at h
          simp only [Except.ok.injEq] at h
          rw [← h]
          exact hinv
        · rw [if_neg hz] at h
          simp only [Except.ok.injEq] at h
          rw [← h]
          refine ⟨?_, hinv.2⟩
          rw [length_foldl_preserve _ (fun v pr => applyExclusionPair_length
            (exclAng0 o.aperture o.rightToLeft)
            (exclDA o.aperture o.rightToLeft o.scan.length)
            o.scan.length pr v) angles o.validRange]
          exact hinv.1
      · rw [if_neg hl] at h
        cases h

/-- C8 amended witness: decoding the version 0 stream s0n2 into the default
record (whose intensity is empty) yields a record satisfying the full
invariant. -/
theorem invariant_preservation_witness :
    readFromStream 0 s0n2 defaultObs = Except.ok decoded0 ∧
      recInvariant decoded0 :=
  ⟨rfl, invariant_preservation.2.1 0 s0n2 defaultObs decoded0 rfl rfl⟩

/-- C8 counterexample: decoding the version 4 stream s4n1 (N = 1) into the
record exStale4, whose intensity array has the stale length 2, produces a
record whose nonempty intensity length 2 differs from its scan length 1, so
the record invariant does not hold after this decode. -/
theorem readFromStream_v4_breaks_invariant :
    readFromStream 4 s4n1 exStale4 = Except.ok decoded4stale ∧
      ¬ recInvariant decoded4stale :=
  ⟨rfl, by simp [recInvariant, decoded4stale]⟩

/-- C9 amended: the polygon zone and angular range filters assert the equal
array lengths and fail fast on a mismatch; the distance/angle/height
truncation filter performs no such check and, without a height band, always
proceeds to return a result. -/
theorem filters_precondition_check :
    (∀ (angles : List (ℚ × ℚ)) (o : CObservation2DRangeScan), angles ≠ [] →
      o.scan.length ≠ o.validRange.length →
      filterByExclusionAngles angles o =
        Except.error CodecError.assertFailed) ∧
    (∀ (cosQ sinQ : ℚ → ℚ) (cp : ℕ → ℚ × ℚ × ℚ → ℚ × ℚ × ℚ)
      (areas : List ((ℚ → ℚ → Bool) × ℚ × ℚ)) (o : CObservation2DRangeScan),
      areas.isEmpty = false → o.scan.length ≠ o.validRange.length →
      filterByExclusionAreas cosQ sinQ cp areas o =
        Except.error CodecError.assertFailed) ∧
    (∀ (cosQ : ℚ → ℚ) (md ma hh : ℚ) (o : CObservation2DRangeScan),
      truncateByDistanceAndAngle cosQ md ma 0 0 hh o ≠
        Except.error CodecError.assertFailed) := by
  refine ⟨?_, ?_, ?_⟩
  · intro angles o hne hmm
    unfold filterByExclusionAngles
    rw [if_neg hne, if_neg hmm]
  · intro cosQ sinQ cp areas o hne hmm
    unfold filterByExclusionAreas
    rw [if_neg (by simp [hne]), if_neg hmm]
  · intro cosQ md ma hh o
    unfold truncateByDistanceAndAngle
    rw [if_neg (by simp)]
    simp

/-- C9 amended witness: the angular range filter on a record with two rays
but a single validity entry fails with the assertion error. -/
theorem filters_precondition_check_witness :
    filterByExclusionAngles [((0 : ℚ), (0 : ℚ))] exMismatch2 =
      Except.error CodecError.assertFailed :=
  filters_precondition_check.1 [((0 : ℚ), (0 : ℚ))] exMismatch2 (by simp)
    (by simp [exMismatch2, defaultObs])

/-- C9 counterexample: the truncation filter, called on a nonempty record
whose scan has one ray but whose validity array is empty, does not fail fast:
it proceeds and returns the record unchanged (the single out of range validity
write being dropped; in C++ it walks an iterator past the end instead of
asserting). -/
theorem truncate_missing_precondition_check :
    exMismatch.scan ≠ [] ∧
      exMismatch.scan.length ≠ exMismatch.validRange.length ∧
      truncateByDistanceAndAngle (fun _ => 1) 0 0 0 0 0 exMismatch =
        Except.ok exMismatch := by
  have hr : List.range 1 = [0] := rfl
  refine ⟨by simp [exMismatch, defaultObs], by simp [exMismatch, defaultObs], ?_⟩
  norm_num [truncateByDistanceAndAngle, truncInvalidates, truncAng, fabs,
    exMismatch, defaultObs, hr]

/-- C1: decoding the stream produced by encoding a record that satisfies the
invariants and has a nonempty intensity array reproduces the record field by
field (the cached map being cleared); float values are opaque in the codec, so
value identity is bit identity. -/
theorem some_bind_eq {α β : Type} (a : α) (f : α → Option β) :
    (some a >>= f : Option β) = f a := rfl

theorem encode_decode_roundtrip (r r0 : CObservation2DRangeScan)
    (l : List StreamItem) (hvr : r.validRange.length = r.scan.length)
    (hi : r.intensity ≠ []) (hil : r.intensity.length = r.scan.length)
    (henc : writeToStream r = Except.ok l) :
    readFromStream 7 l r0 = Except.ok { r with m_cachedMap := none } := by
  have hN : r.scan.length ≠ 0 := by
    intro h0
    rw [h0] at hil
    exact hi (List.eq_nil_of_length_eq_zero hil)
  unfold writeToStream at henc
  rw [if_pos hvr, if_neg hN, if_neg hi] at henc
  simp only [Except.ok.injEq] at henc
  subst henc
  have htake : r.intensity.take r.scan.length = r.intensity := by
    rw [← hil]
    exact List.take_length r.intensity
  unfold readFromStream
  rw [if_neg (by norm_num), if_pos (by norm_num)]
  simp only [List.cons_append, List.nil_append]
  rw [readV47]
  rw [readF32, some_bind_eq]
  dsimp only
  rw [readBool, some_bind_eq]
  dsimp only
  rw [readF32, some_bind_eq]
  dsimp only
  rw [readPose, some_bind_eq]
  dsimp only
  rw [readCovV, if_neg (by norm_num : ¬ (7 : ℤ) < 6), some_bind_eq]
  dsimp only
  rw [readU32, some_bind_eq]
  dsimp only
  rw [readScanValid, if_neg hN, readF32Buf, if_pos rfl, some_bind_eq]
  dsimp only
  rw [readByteBuf, if_pos hvr, some_bind_eq]
  dsimp only
  rw [some_bind_eq]
  dsimp only
  rw [readF32, some_bind_eq]
  dsimp only
  rw [readU64, some_bind_eq]
  dsimp only
  rw [readF32, some_bind_eq]
  dsimp only
  rw [readLabelPitchV, if_pos (by norm_num : (5 : ℤ) ≤ 7)]
  rw [readStr, some_bind_eq]
  dsimp only
  rw [readF64, some_bind_eq]
  dsimp only
  rw [some_bind_eq]
  dsimp only
  rw [readIntensityV, if_pos (by norm_num : (7 : ℤ) ≤ 7)]
  rw [readIntensityV7, readBool, some_bind_eq]
  dsimp only
  rw [if_pos ⟨by rw [decide_eq_true_eq]; exact hi, hN⟩]
  rw [readF32Buf, if_pos (by rw [htake]; exact hil), some_bind_eq]
  dsimp only
  rw [htake]

/-- C1 witness: the record exFull, which differs from the constructed default
in every serialized field and has a nonempty intensity array, encodes to lFull
and decodes back to itself with the cached map cleared. -/
theorem encode_decode_roundtrip_witness :
    writeToStream exFull = Except.ok lFull ∧
      readFromStream 7 lFull defaultObs =
        Except.ok { exFull with m_cachedMap := none } :=
  ⟨rfl, encode_decode_roundtrip exFull defaultObs lFull (by simp [exFull])
    (by simp [exFull]) (by simp [exFull]) rfl⟩

end MRPTObs
